import Mathlib

/-!
Verification of the research-aggregation and specialist-matching core of
the another-doctor-app backend.

The embedded code lives in
apps/backend/app/services/research_aggregator.py (dataclasses
ResearchResult and AggregatedResults, class ResearchAggregationService)
and apps/backend/app/services/matching_service.py (class MatchingService).

Modelling conventions:

  Numeric scores are exact fixed-point integers.  Every score the source
  computes is a finite sum of the float literals 2.0, 1.0, 0.5 (research
  relevance), of 2, 5, 1, 0.5 times small integers (matching scores), or
  of tenths (the mock vector-similarity scores).  All of these are exact
  in IEEE doubles except the tenths, whose ordering and equalities used
  by the code are nevertheless exact; so an integer model in a fixed unit
  is faithful.  Units used below:
    - ResearchResult.relevance_score is in HALF points (source value x 2);
    - doctor, institution and total matching scores are in QUARTER points
      (source value x 4);
    - vector similarity scores are in TENTHS (source value x 10).

  External I/O (the five research APIs, the qdrant vector search) is
  modelled by passing the outcome of each call as an explicit argument of
  type Except String (payload): ok for a normal return, error for a
  raised exception, carrying str(e).

  CPython sorted(key=k, reverse=True) is a stable descending sort.  It is
  modelled by stableSortBy le, a structural stable insertion sort, with
  le a b deciding that a may stay in front of b, i.e. k b <= k a; any two
  stable sorts of the same total preorder agree, so this is exact.
-/

namespace AnotherDoctor

/-! ## A stable sort, modelling CPython sorted -/

/-- Insert a in front of the first element b of l with le a b; ties in le
keep a (the earlier element in the original list) in front. -/
def insertLe {α : Type} (le : α → α → Bool) (a : α) : List α → List α
  | [] => [a]
  | b :: t => if le a b then a :: b :: t else b :: insertLe le a t

/-- Stable insertion sort: elements equivalent under le keep their
original relative order. -/
def stableSortBy {α : Type} (le : α → α → Bool) : List α → List α
  | [] => []
  | a :: l => insertLe le a (stableSortBy le l)

namespace Research

/-! ## Data model of research_aggregator.py -/

/-- A value stored in the additional_data dict of a ResearchResult by
_convert_to_research_result (lines 265-315). -/
inductive ExtraVal where
  | null
  | str (s : String)
  | int (n : Int)
  | strList (l : List String)
  | emptyDict
  deriving DecidableEq

/-- The additional_data dict: keys in insertion order. -/
abbrev AdditionalData := List (String × ExtraVal)

/-- Read an int entry of additional_data with a default, as
additional_data.get(key, dflt) does where the stored value is an int. -/
def getIntEntry (l : AdditionalData) (key : String) (dflt : Int) : Int :=
  match l.lookup key with
  | some (ExtraVal.int n) => n
  | _ => dflt

/-- Dataclass ResearchResult (research_aggregator.py lines 20-34).
relevance_score is in half points (source float x 2; see module header).
additional_data defaults to None (here: none). -/
structure ResearchResult where
  source : String
  source_key : String
  title : String
  abstract : String
  year : Option Int
  authors : List String
  url : String
  relevance_score : Int := 0
  additional_data : Option AdditionalData := none
  deriving DecidableEq

/-- Dataclass AggregatedResults (lines 36-60).  execution_time_ms is wall
clock time, outside the model; it is fixed to 0 here. -/
structure AggregatedResults where
  query : String
  total_results : Nat
  sources_queried : List String
  execution_time_ms : Int
  publications : List ResearchResult
  clinical_trials : List ResearchResult
  grants : List ResearchResult
  errors : List String
  deriving DecidableEq

/-- One raw item as returned by a source API, a Python dict read only
through item.get(...): absent keys are none. -/
structure RawItem where
  source_key : Option String := none
  title : Option String := none
  abstract : Option String := none
  year : Option Int := none
  authors : Option (List String) := none
  url : Option String := none
  mesh_terms : Option (List String) := none
  journal : Option String := none
  doi : Option String := none
  concepts : Option (List String) := none
  institutions : Option (List String) := none
  citation_count : Option Int := none
  status : Option String := none
  conditions : Option (List String) := none
  investigators : Option (List String) := none
  phase : Option (List String) := none
  pi : Option ExtraVal := none
  organization : Option String := none
  type : Option String := none
  deriving DecidableEq

/-- Python optional-string value placed into additional_data (doi keys):
item.get(key) is None when absent. -/
def optStr (o : Option String) : ExtraVal :=
  match o with
  | some s => ExtraVal.str s
  | none => ExtraVal.null

/-- _convert_to_research_result (lines 265-315). -/
def _convert_to_research_result (item : RawItem) (source : String) :
    ResearchResult :=
  let additional_data : AdditionalData :=
    if source = "pubmed" then
      [("mesh_terms", ExtraVal.strList (item.mesh_terms.getD [])),
       ("journal", ExtraVal.str (item.journal.getD "")),
       ("doi", optStr item.doi)]
    else if source = "openalex" then
      [("concepts", ExtraVal.strList (item.concepts.getD [])),
       ("institutions", ExtraVal.strList (item.institutions.getD [])),
       ("citation_count", ExtraVal.int (item.citation_count.getD 0))]
    else if source = "clinical_trials" then
      [("status", ExtraVal.str (item.status.getD "")),
       ("conditions", ExtraVal.strList (item.conditions.getD [])),
       ("investigators", ExtraVal.strList (item.investigators.getD [])),
       ("phase", ExtraVal.strList (item.phase.getD []))]
    else if source = "nih_reporter" then
      [("pi", item.pi.getD ExtraVal.emptyDict),
       ("organization", ExtraVal.str (item.organization.getD ""))]
    else if source = "crossref" then
      [("journal", ExtraVal.str (item.journal.getD "")),
       ("type", ExtraVal.str (item.type.getD "")),
       ("doi", optStr item.doi)]
    else []
  { source := source
    source_key := item.source_key.getD ""
    title := item.title.getD ""
    abstract := item.abstract.getD ""
    year := item.year
    authors := item.authors.getD []
    url := item.url.getD ""
    relevance_score := 0
    additional_data := some additional_data }

/-! ## The relevance ranker (_rank_results, lines 317-362) -/

/-- Model of str.lower() on the list of characters (character-wise
lowercasing; equal to CPython for the inputs at play). -/
def lowerChars (l : List Char) : List Char :=
  l.map Char.toLower

/-- Model of str.lower() (structural, so that concrete evaluation
reduces in the kernel). -/
def strToLower (s : String) : String :=
  String.mk (lowerChars s.data)

/-- needle is a leading run of hay (list-of-chars view). -/
def listStarts : List Char → List Char → Bool
  | [], _ => true
  | _ :: _, [] => false
  | a :: as, b :: bs => a == b && listStarts as bs

/-- needle occurs contiguously inside hay (list-of-chars view). -/
def listHasSub (n : List Char) : List Char → Bool
  | [] => n.isEmpty
  | c :: rest => listStarts n (c :: rest) || listHasSub n rest

/-- The Python expression (needle in hay) on str: substring containment
(the empty needle is contained in everything). -/
def substrOf (needle hay : String) : Bool :=
  listHasSub needle.data hay.data

/-- Split a list of characters at whitespace runs, dropping empty runs,
as str.split() with no argument does. -/
def splitWsAux (cur : List Char) : List Char → List (List Char)
  | [] => if cur.isEmpty then [] else [cur.reverse]
  | c :: rest =>
    if c.isWhitespace then
      if cur.isEmpty then splitWsAux [] rest
      else cur.reverse :: splitWsAux [] rest
    else splitWsAux (c :: cur) rest

/-- query.lower().split(): lower-case, then split on whitespace runs; no
empty terms arise. -/
def queryTerms (query : String) : List String :=
  (splitWsAux [] (lowerChars query.data)).map String.mk

/-- The score the loop body of _rank_results (lines 326-355) assigns to
one result, in half points: +2.0 per query term in the title becomes +4,
+1.0 per term in the abstract +2, recency +1.0 / +0.5 becomes +2 / +1,
openalex citation bonus +2.0 / +1.0 becomes +4 / +2.  The Python guard
(result.year and result.year >= 2020) is truthiness plus comparison;
year 0 is falsy there but also fails both comparisons, so a plain
comparison on the present value is equivalent. -/
def scoreResult (query_terms : List String) (r : ResearchResult) : Int :=
  let title_lower := strToLower r.title
  let titleHits : Int := (query_terms.filter fun term => substrOf term title_lower).length
  let abstract_lower := strToLower r.abstract
  let abstractHits : Int := (query_terms.filter fun term => substrOf term abstract_lower).length
  let recency : Int :=
    match r.year with
    | some y => if y ≥ 2020 then 2 else if y ≥ 2015 then 1 else 0
    | none => 0
  let citations : Int :=
    if r.source = "openalex" then
      match r.additional_data with
      | some l =>
        if l = [] then 0
        else
          let citation_count := getIntEntry l "citation_count" 0
          if citation_count > 100 then 4 else if citation_count > 10 then 2 else 0
      | none => 0
    else 0
  4 * titleHits + 2 * abstractHits + recency + citations

/-- Sort key of line 360: (x.relevance_score, x.year or 0); a missing
year counts as 0 (and year 0 maps to 0 either way). -/
def sortKey (r : ResearchResult) : Int × Int :=
  (r.relevance_score, r.year.getD 0)

/-- Lexicographic order on the sort key, as Python compares tuples. -/
def keyLE (a b : Int × Int) : Bool :=
  decide (a.1 < b.1) || (decide (a.1 = b.1) && decide (a.2 ≤ b.2))

/-- a may stay in front of b in the descending, stable sort of line 358:
key of b is lexicographically at most key of a. -/
def rankDescLe (a b : ResearchResult) : Bool :=
  keyLE (sortKey b) (sortKey a)

/-- The score-assignment pass of _rank_results: each result with its
relevance_score replaced (the source mutates in place). -/
def scoredResults (results : List ResearchResult) (query : String) :
    List ResearchResult :=
  results.map fun r => { r with relevance_score := scoreResult (queryTerms query) r }

/-- _rank_results (lines 317-362): assign scores, then a stable sort
descending on (relevance_score, year or 0). -/
def _rank_results (results : List ResearchResult) (query : String) :
    List ResearchResult :=
  stableSortBy rankDescLe (scoredResults results query)

/-! ## The aggregation coordinator (search_all_sources, lines 74-180) -/

/-- The outcome of the body of one per-source unit of work: the list the
API calls produced, or the message of the exception they raised. -/
abbrev SourceOutcome := Except String (List RawItem)

/-- The keys of self.apis in insertion order (lines 66-72). -/
def knownSources : List String :=
  ["pubmed", "openalex", "clinical_trials", "nih_reporter", "crossref"]

/-- Line 94: include_sources if include_sources else list(self.apis.keys());
an empty or absent list selects every known source (Python truthiness). -/
def sourcesToQuery (include_sources : Option (List String)) : List String :=
  match include_sources with
  | some l => if l.isEmpty then knownSources else l
  | none => knownSources

/-- Lines 99-102: a task is created only for selected sources that are
keys of self.apis. -/
def searchedSources (include_sources : Option (List String)) : List String :=
  (sourcesToQuery include_sources).filter fun s => knownSources.contains s

/-- _search_source (lines 227-263): the body dispatches to the proper API
(whose joint outcome is the given SourceOutcome) and its catch-all except
returns [] for ANY raised exception. -/
def _search_source (outcome : SourceOutcome) : List RawItem :=
  match outcome with
  | Except.ok items => items
  | Except.error _ => []

/-- What task_result.result() yields at the join point (line 114): since
_search_source catches every exception, the task always completes with a
value and result() never re-raises. -/
def taskResult (outcomes : String → SourceOutcome) (s : String) :
    Except String (List RawItem) :=
  Except.ok (_search_source (outcomes s))

/-- Keys of the task_results dict in first-insertion order (duplicates in
the task list collapse onto one dict key). -/
def firstKeys (seen : List String) : List String → List String
  | [] => []
  | s :: rest =>
    if seen.contains s then firstKeys seen rest
    else s :: firstKeys (s :: seen) rest

/-- The collection loop of lines 111-118: build the results dict and the
errors list in key order.  The except branch appends
source ++ ": " ++ message when result() re-raises. -/
def collectResults (outcomes : String → SourceOutcome) (keys : List String) :
    List (String × List RawItem) × List String :=
  keys.foldl
    (fun acc s =>
      match taskResult outcomes s with
      | Except.ok value => (acc.1 ++ [(s, value)], acc.2)
      | Except.error e => (acc.1 ++ [(s, ([] : List RawItem))], acc.2 ++ [s ++ ": " ++ e]))
    ([], [])

/-- search_all_sources (lines 74-180).  The per-source network outcomes
are passed explicitly; max_results_per_source only parameterizes the
remote calls, already reflected in the outcomes. -/
def search_all_sources (query : String) (max_results_per_source : Nat)
    (include_sources : Option (List String))
    (outcomes : String → SourceOutcome) : AggregatedResults :=
  let _ := max_results_per_source
  let sources_to_query := sourcesToQuery include_sources
  let collected := collectResults outcomes (firstKeys [] (searchedSources include_sources))
  let results := collected.1
  let errors := collected.2
  let bucketOf : String → List ResearchResult := fun s =>
    match results.lookup s with
    | some items => items.map fun item => _convert_to_research_result item s
    | none => []
  let publications :=
    bucketOf "pubmed" ++ bucketOf "openalex" ++ bucketOf "crossref"
  let clinical_trials := bucketOf "clinical_trials"
  let grants := bucketOf "nih_reporter"
  let publications := _rank_results publications query
  let clinical_trials := _rank_results clinical_trials query
  let grants := _rank_results grants query
  let total_results := publications.length + clinical_trials.length + grants.length
  { query := query
    total_results := total_results
    sources_queried := sources_to_query
    execution_time_ms := 0
    publications := publications
    clinical_trials := clinical_trials
    grants := grants
    errors := errors }

/-! ## Spec-side definition and concrete inputs used by the theorems -/

/-- The recency bonus as the spec words it, in half points: +1.0 when
year is at least current_year - 5, else +0.5 when at least
current_year - 10, else nothing.  Declared from the words of the spec to
compare with the fixed thresholds 2020 and 2015 of scoreResult. -/
def specRecencyBonus (current_year : Int) (year : Option Int) : Int :=
  match year with
  | some y =>
    if y ≥ current_year - 5 then 2
    else if y ≥ current_year - 10 then 1
    else 0
  | none => 0

/-- Per-source outcomes where exactly the pubmed unit raises and the
others return normally (openalex and clinical_trials non-empty). -/
def outcomesOneFailing : String → SourceOutcome := fun s =>
  if s = "pubmed" then Except.error "Connection refused"
  else if s = "openalex" then
    Except.ok [{ source_key := some "W1", title := some "Heart failure outcomes",
                 year := some 2023, citation_count := some 150 }]
  else if s = "clinical_trials" then
    Except.ok [{ source_key := some "NCT1", title := some "Trial of heart therapy",
                 year := some 2022 }]
  else Except.ok []

/-- Per-source outcomes where every source returns an empty list. -/
def outcomesAllEmpty : String → SourceOutcome := fun _ => Except.ok []

/-- The worked example of the spec: a title-only match with the current
year. -/
def cardioEx : ResearchResult :=
  { source := "pubmed", source_key := "X", title := "Cardiovascular Disease Outcomes",
    abstract := "", year := some 2026, authors := [], url := "" }

/-- A result from the year 2020 with no term matches: its whole score is
the recency bonus. -/
def r2020 : ResearchResult :=
  { source := "pubmed", source_key := "Y", title := "", abstract := "",
    year := some 2020, authors := [], url := "" }

end Research

namespace Matching

/-! ## Data model of matching_service.py -/

/-- The payload dict of a vector-search hit, read only through
payload.get(...): absent keys are none.  author_ids and institution_ids
appear in the mock data but are never read. -/
structure WorkPayload where
  source : Option String := none
  source_key : Option String := none
  title : Option String := none
  year : Option Int := none
  mesh_terms : Option (List String) := none
  author_ids : Option (List String) := none
  institution_ids : Option (List String) := none
  country : Option String := none
  is_pi : Option Bool := none
  url : Option String := none
  deriving DecidableEq

/-- One vector-search result dict {work_id, score, payload} as built by
_vector_search (lines 68-75).  score is the similarity in tenths
(source float x 10; see module header). -/
structure VectorWork where
  work_id : String
  score : Int
  payload : WorkPayload
  deriving DecidableEq

/-- Pydantic model MatchFilters (schemas/matching.py); only the keys
_apply_symbolic_filters reads are modelled. -/
structure MatchFilters where
  min_year : Option Int := none
  mesh_terms : Option (List String) := none
  specialties : Option (List String) := none
  countries : Option (List String) := none
  deriving DecidableEq

/-- The case_json dict.  The matching service itself reads only
case_json["condition"]["text"] (in _generate_explanation); the synthetic
abstract built from the case in _vector_search is fed to a mocked
embedding and never influences the result. -/
structure CaseJson where
  condition_text : String
  deriving DecidableEq

/-- Pydantic model MatchRequest (schemas/matching.py): case_json,
optional filters, max_results (default 10), explanation_level. -/
structure MatchRequest where
  case_json : CaseJson
  filters : Option MatchFilters := none
  max_results : Option Nat := some 10
  explanation_level : String := "standard"
  deriving DecidableEq

/-- The six scoring components (_calculate_score_components,
lines 178-217); all are counts, so naturals. -/
structure ScoreComponents where
  pubs_5y : Nat
  trials_pi : Nat
  citations_bucket : Nat
  inst_pubs : Nat
  inst_trials : Nat
  nih_grants : Nat
  deriving DecidableEq

/-- One entry of the scored_doctors list built by _calculate_scores
(lines 167-174).  The three scores are in quarter points
(source value x 4). -/
structure ScoredDoctor where
  doctor_id : String
  doctor_score : Int
  institution_score : Int
  total_score : Int
  components : ScoreComponents
  works : List VectorWork
  deriving DecidableEq

/-- One evidence dict built by _generate_evidence (lines 260-277);
relevance_score is the vector similarity of the work, in tenths. -/
structure EvidenceItem where
  type : String
  title : String
  year : Option Int
  url : Option String
  relevance_score : Int
  pmid : Option String := none
  nct_id : Option String := none
  role : Option String := none
  project_id : Option String := none
  deriving DecidableEq

/-- Pydantic model MatchResult (schemas/matching.py), restricted to the
fields find_matches fills (lines 235-246); scores in quarter points. -/
structure MatchResult where
  doctor_id : String
  doctor_name : String
  institution : String
  specialty : String
  total_score : Int
  doctor_score : Int
  institution_score : Int
  components : ScoreComponents
  evidence : List EvidenceItem
  explanation : String
  deriving DecidableEq

/-! ## Stage 1: vector search (lines 48-79) -/

/-- The outcome of the qdrant search call: the hits, or the message of
the raised exception. -/
abbrev QdrantOutcome := Except String (List VectorWork)

/-- _get_mock_vector_results (lines 313-333): 20 hard-coded pubmed works;
score 0.9 - i * 0.1 becomes 9 - i tenths. -/
def _get_mock_vector_results : List VectorWork :=
  (List.range 20).map fun i =>
    { work_id := "work_" ++ toString i
      score := 9 - (i : Int)
      payload :=
        { source := some "pubmed"
          source_key := some ("PMID" ++ toString (12345000 + i))
          title := some ("Study on Critical Limb Ischemia Treatment " ++ toString (i + 1))
          year := some (2023 - ((i : Int) % 5))
          mesh_terms := some ["D016491", "D058729"]
          author_ids := some ["doctor_" ++ toString (i % 3 + 1)]
          institution_ids := some ["inst_" ++ toString (i % 2 + 1)]
          country := some "US"
          is_pi := some (i % 3 == 0) } }

/-- _vector_search (lines 48-79): on any exception from the qdrant call
the catch-all except returns the hard-coded mock results instead. -/
def _vector_search (outcome : QdrantOutcome) : List VectorWork :=
  match outcome with
  | Except.ok hits => hits
  | Except.error _ => _get_mock_vector_results

/-! ## Stage 2: symbolic filters (lines 81-120) -/

/-- The country test of line 109: payload.get("country") not in
allowed_countries skips the work; a missing country is never in the
list. -/
def countryAllowed (c : Option String) (allowed : List String) : Bool :=
  match c with
  | some s => allowed.contains s
  | none => false

/-- Whether one result survives every filter (the loop body of
lines 93-118; the specialties branch is a pass). -/
def passesFilters (f : MatchFilters) (result : VectorWork) : Bool :=
  let payload := result.payload
  let min_year := f.min_year.getD 2019
  if payload.year.getD 2025 < min_year then false
  else
    let required_mesh := f.mesh_terms.getD []
    let result_mesh := payload.mesh_terms.getD []
    if !required_mesh.isEmpty && !(required_mesh.any fun term => result_mesh.contains term) then false
    else
      let allowed_countries := f.countries.getD []
      if !allowed_countries.isEmpty && !(countryAllowed payload.country allowed_countries) then false
      else true

/-- _apply_symbolic_filters (lines 81-120); a falsy filters argument
(None) behaves as the empty dict, i.e. every key at its default. -/
def _apply_symbolic_filters (vector_results : List VectorWork)
    (filters : Option MatchFilters) : List VectorWork :=
  vector_results.filter (passesFilters (filters.getD {}))

/-! ## Stage 3: aggregation to doctors (lines 122-137) -/

/-- The mock doctor ids of line 130: doctor_1, doctor_2, doctor_3. -/
def mock_doctors : List String :=
  (List.range' 1 3).map fun i => "doctor_" ++ toString i

/-- doctor_works.setdefault(d, []).append(w) on an insertion-ordered
dict. -/
def appendWork (acc : List (String × List VectorWork)) (d : String)
    (w : VectorWork) : List (String × List VectorWork) :=
  match acc with
  | [] => [(d, [w])]
  | (k, ws) :: rest =>
    if k = d then (k, ws ++ [w]) :: rest
    else (k, ws) :: appendWork rest d w

/-- _aggregate_to_doctors (lines 122-137): every work is appended to the
works list of each of the three mock doctors. -/
def _aggregate_to_doctors (works : List VectorWork) :
    List (String × List VectorWork) :=
  works.foldl
    (fun doctor_works work =>
      mock_doctors.foldl (fun acc d => appendWork acc d work) doctor_works)
    []

/-! ## Stage 4: scoring (lines 139-217) -/

/-- _calculate_score_components (lines 178-217).  current_year is
hard-coded to 2025 in the source; the institution metrics are the mock
multiples of the doctor metrics. -/
def _calculate_score_components (works : List VectorWork) : ScoreComponents :=
  let current_year : Int := 2025
  let pubs_5y : Nat :=
    (works.filter fun w =>
      w.payload.source == some "pubmed" && w.payload.year.getD 0 ≥ current_year - 5).length
  let trials_pi : Nat :=
    (works.filter fun w =>
      w.payload.source == some "ctgov" && w.payload.is_pi.getD false).length
  let citations_bucket : Nat := min 3 (pubs_5y / 5)
  { pubs_5y := pubs_5y
    trials_pi := trials_pi
    citations_bucket := citations_bucket
    inst_pubs := pubs_5y * 5
    inst_trials := trials_pi * 2
    nih_grants := trials_pi }

/-- The scoring formula inlined in the loop of _calculate_scores
(lines 152-165), in quarter points:
doctor = 2 * pubs_5y + 5 * trials_pi + 1 * citations_bucket points;
institution = 0.5 * inst_pubs + 2 * inst_trials + 0.5 * nih_grants
points, i.e. 2, 8 and 2 quarters; total = doctor + 0.5 * institution,
where institution_score is even so the halving is exact. -/
def scoringFormula (components : ScoreComponents) : Int × Int × Int :=
  let doctor_score : Int :=
    4 * (2 * (components.pubs_5y : Int) + 5 * (components.trials_pi : Int)
      + 1 * (components.citations_bucket : Int))
  let institution_score : Int :=
    2 * (components.inst_pubs : Int) + 8 * (components.inst_trials : Int)
      + 2 * (components.nih_grants : Int)
  let total_score : Int := doctor_score + institution_score / 2
  (doctor_score, institution_score, total_score)

/-- _calculate_scores (lines 139-176). -/
def _calculate_scores (doctor_works : List (String × List VectorWork)) :
    List ScoredDoctor :=
  doctor_works.map fun entry =>
    let components := _calculate_score_components entry.2
    let scores := scoringFormula components
    { doctor_id := entry.1
      doctor_score := scores.1
      institution_score := scores.2.1
      total_score := scores.2.2
      components := components
      works := entry.2 }

/-! ## Stage 5: evidence, explanation, results (lines 219-311) -/

/-- The loop body of _generate_evidence (lines 257-277) on one work. -/
def evidenceItemOfWork (work : VectorWork) : EvidenceItem :=
  let payload := work.payload
  let base : EvidenceItem :=
    { type := payload.source.getD "unknown"
      title := payload.title.getD "Untitled"
      year := payload.year
      url := payload.url
      relevance_score := work.score }
  if payload.source == some "pubmed" then
    { base with pmid := payload.source_key }
  else if payload.source == some "ctgov" then
    { base with
        nct_id := payload.source_key
        role := some (if payload.is_pi.getD false then "PI" else "Investigator") }
  else if payload.source == some "nih_reporter" then
    { base with project_id := payload.source_key }
  else base

/-- _generate_evidence (lines 252-279): the FIRST five works of the list,
in list order, each annotated. -/
def _generate_evidence (works : List VectorWork) : List EvidenceItem :=
  (works.take 5).map evidenceItemOfWork

/-- _get_mock_doctor_info (lines 335-360). -/
def _get_mock_doctor_info (doctor_id : String) : String × String × String :=
  if doctor_id = "doctor_1" then
    ("Dr. Sarah Johnson", "Cleveland Clinic", "Vascular Surgery")
  else if doctor_id = "doctor_2" then
    ("Dr. Michael Chen", "Mayo Clinic", "Interventional Cardiology")
  else if doctor_id = "doctor_3" then
    ("Dr. Emily Rodriguez", "Johns Hopkins", "Vascular Surgery")
  else
    ("Dr. Unknown (" ++ doctor_id ++ ")", "Unknown Institution", "Unknown Specialty")

/-- _generate_explanation (lines 281-311). -/
def _generate_explanation (doctor_data : ScoredDoctor) (case_json : CaseJson) :
    String :=
  let components := doctor_data.components
  let condition := case_json.condition_text
  let explanation_parts : List String :=
    (if components.pubs_5y > 0 then
      [toString components.pubs_5y ++ " recent publications related to " ++ condition]
     else []) ++
    (if components.trials_pi > 0 then
      ["Principal investigator on " ++ toString components.trials_pi ++ " clinical trials"]
     else []) ++
    (if components.inst_pubs > 10 then
      ["Institution has strong research presence with " ++ toString components.inst_pubs
        ++ " related publications"]
     else [])
  let explanation_parts :=
    if explanation_parts.isEmpty then
      ["Matched based on vector similarity to case description"]
    else explanation_parts
  String.intercalate ". " explanation_parts ++ "."

/-- _generate_match_results (lines 219-250). -/
def _generate_match_results (scored_doctors : List ScoredDoctor)
    (case_json : CaseJson) : List MatchResult :=
  scored_doctors.map fun doctor_data =>
    let evidence := _generate_evidence doctor_data.works
    let doctor_info := _get_mock_doctor_info doctor_data.doctor_id
    { doctor_id := doctor_data.doctor_id
      doctor_name := doctor_info.1
      institution := doctor_info.2.1
      specialty := doctor_info.2.2
      total_score := doctor_data.total_score
      doctor_score := doctor_data.doctor_score
      institution_score := doctor_data.institution_score
      components := doctor_data.components
      evidence := evidence
      explanation := _generate_explanation doctor_data case_json }

/-- a may stay in front of b in the final stable descending sort of
line 46 (key: total_score). -/
def matchDescLe (a b : MatchResult) : Bool :=
  decide (b.total_score ≤ a.total_score)

/-- The unsorted list of match results find_matches builds before its
final line (stages 1-5 chained). -/
def matchesOf (match_request : MatchRequest) (qdrant : QdrantOutcome) :
    List MatchResult :=
  let vector_results := _vector_search qdrant
  let filtered_results := _apply_symbolic_filters vector_results match_request.filters
  let doctor_works := _aggregate_to_doctors filtered_results
  let scored_doctors := _calculate_scores doctor_works
  _generate_match_results scored_doctors match_request.case_json

/-- find_matches (lines 21-46): the pipeline, then
sorted(matches, key=total_score, reverse=True)[:10].  The slice bound 10
is hard-coded in the source; match_request.max_results is never read. -/
def find_matches (match_request : MatchRequest) (qdrant : QdrantOutcome) :
    List MatchResult :=
  (stableSortBy matchDescLe (matchesOf match_request qdrant)).take 10

/-! ## Concrete inputs used by the theorems -/

/-- A request with every field at its default. -/
def reqCLI : MatchRequest :=
  { case_json := { condition_text := "critical limb ischemia" } }

/-- A request asking for at most 2 results. -/
def reqMax2 : MatchRequest :=
  { case_json := { condition_text := "x" }, max_results := some 2 }

/-- One work that survives the default filters. -/
def wSimple : VectorWork :=
  { work_id := "w0", score := 8,
    payload := { source := some "pubmed", source_key := some "PMID1",
                 title := some "T", year := some 2023 } }

/-- Six works with strictly descending similarity scores and varied
sources, as the vector stage delivers them. -/
def works6 : List VectorWork :=
  [{ work_id := "a", score := 9,
     payload := { source := some "pubmed", source_key := some "PMID9",
                  title := some "A", year := some 2023 } },
   { work_id := "b", score := 8,
     payload := { source := some "ctgov", source_key := some "NCT8",
                  title := some "B", year := some 2022, is_pi := some true } },
   { work_id := "c", score := 7,
     payload := { source := some "ctgov", source_key := some "NCT7",
                  title := some "C", year := some 2021, is_pi := some false } },
   { work_id := "d", score := 6,
     payload := { source := some "nih_reporter", source_key := some "P6",
                  title := some "D", year := some 2020 } },
   { work_id := "e", score := 5,
     payload := { source := some "openalex", source_key := some "W5",
                  title := some "E", year := some 2019 } },
   { work_id := "f", score := 4,
     payload := { source := some "pubmed", source_key := some "PMID4",
                  title := some "F", year := some 2018 } }]

end Matching

/-! ## Properties of the stable sort -/

theorem perm_insertLe {α : Type} (le : α → α → Bool) (a : α) (l : List α) :
    (insertLe le a l).Perm (a :: l) := by
  induction l with
  | nil => simp [insertLe]
  | cons b t ih =>
    simp only [insertLe]
    split
    · exact List.Perm.refl _
    · exact ((ih.cons b).trans (List.Perm.swap a b t))

theorem perm_stableSortBy {α : Type} (le : α → α → Bool) (l : List α) :
    (stableSortBy le l).Perm l := by
  induction l with
  | nil => simp [stableSortBy]
  | cons a l ih =>
    exact (perm_insertLe le a (stableSortBy le l)).trans (ih.cons a)

theorem length_stableSortBy {α : Type} (le : α → α → Bool) (l : List α) :
    (stableSortBy le l).length = l.length :=
  (perm_stableSortBy le l).length_eq

theorem mem_insertLe {α : Type} {le : α → α → Bool} {a x : α} {l : List α} :
    x ∈ insertLe le a l ↔ x = a ∨ x ∈ l := by
  rw [(perm_insertLe le a l).mem_iff]
  simp

theorem pairwise_insertLe {α : Type} {le : α → α → Bool}
    (htrans : ∀ x y z, le x y = true → le y z = true → le x z = true)
    (htotal : ∀ x y, le x y = true ∨ le y x = true)
    {a : α} {l : List α} (hl : l.Pairwise (fun x y => le x y = true)) :
    (insertLe le a l).Pairwise (fun x y => le x y = true) := by
  induction l with
  | nil => simp [insertLe]
  | cons b t ih =>
    rcases hl with - | ⟨hb, ht⟩
    simp only [insertLe]
    split
    · rename_i hab
      refine List.Pairwise.cons ?_ (List.Pairwise.cons hb ht)
      intro x hx
      rcases List.mem_cons.mp hx with rfl | hx
      · exact hab
      · exact htrans a b x hab (hb x hx)
    · rename_i hab
      have hba : le b a = true := by
        rcases htotal a b with h | h
        · exact absurd h hab
        · exact h
      refine List.Pairwise.cons ?_ (ih ht)
      intro x hx
      rcases mem_insertLe.mp hx with rfl | hx
      · exact hba
      · exact hb x hx

theorem pairwise_stableSortBy {α : Type} {le : α → α → Bool}
    (htrans : ∀ x y z, le x y = true → le y z = true → le x z = true)
    (htotal : ∀ x y, le x y = true ∨ le y x = true)
    (l : List α) :
    (stableSortBy le l).Pairwise (fun x y => le x y = true) := by
  induction l with
  | nil => simp [stableSortBy]
  | cons a l ih => exact pairwise_insertLe htrans htotal ih

theorem filter_insertLe_pos {α : Type} {le : α → α → Bool} {p : α → Bool}
    {a : α} (hp : p a = true)
    (hkey : ∀ b, p b = true → le a b = true) (l : List α) :
    (insertLe le a l).filter p = a :: l.filter p := by
  induction l with
  | nil => simp [insertLe, hp]
  | cons b t ih =>
    simp only [insertLe]
    split
    · simp [List.filter, hp]
    · rename_i hab
      have hpb : p b = false := by
        cases hb : p b
        · rfl
        · exact absurd (hkey b hb) hab
      simp [List.filter, hpb, ih]

theorem filter_insertLe_neg {α : Type} {le : α → α → Bool} {p : α → Bool}
    {a : α} (hp : p a = false) (l : List α) :
    (insertLe le a l).filter p = l.filter p := by
  induction l with
  | nil => simp [insertLe, hp]
  | cons b t ih =>
    simp only [insertLe]
    split
    · simp [List.filter, hp]
    · cases hb : p b <;> simp [List.filter, hb, ih]

/-- Stability of stableSortBy: when le holds both ways across each class
of a boolean predicate p (for instance, p selects one equivalence class
of the sort key), the p-selected subsequence is untouched by the sort. -/
theorem filter_stableSortBy {α : Type} {le : α → α → Bool} {p : α → Bool}
    (hcls : ∀ x y, p x = true → p y = true → le x y = true)
    (l : List α) :
    (stableSortBy le l).filter p = l.filter p := by
  induction l with
  | nil => simp [stableSortBy]
  | cons a l ih =>
    simp only [stableSortBy]
    cases ha : p a
    · rw [filter_insertLe_neg ha, ih]
      simp [List.filter, ha]
    · rw [filter_insertLe_pos ha (fun b hb => hcls a b ha hb), ih]
      simp [List.filter, ha]

theorem all_eq_of_perm {α : Type} {l₁ l₂ : List α} (h : l₁.Perm l₂)
    (p : α → Bool) : l₁.all p = l₂.all p := by
  cases hb : l₂.all p
  · rw [List.all_eq_false] at hb ⊢
    obtain ⟨x, hx, hpx⟩ := hb
    exact ⟨x, h.mem_iff.mpr hx, hpx⟩
  · rw [List.all_eq_true] at hb ⊢
    exact fun x hx => hb x (h.mem_iff.mp hx)

namespace Research

/-! ## Helper lemmas on the ranker -/

theorem keyLE_iff {x y : Int × Int} :
    keyLE x y = true ↔ x.1 < y.1 ∨ (x.1 = y.1 ∧ x.2 ≤ y.2) := by
  simp [keyLE, decide_eq_true_iff]

theorem rankDescLe_trans (x y z : ResearchResult)
    (hxy : rankDescLe x y = true) (hyz : rankDescLe y z = true) :
    rankDescLe x z = true := by
  simp only [rankDescLe, keyLE_iff] at *
  rcases hxy with h | ⟨h1, h2⟩ <;> rcases hyz with g | ⟨g1, g2⟩ <;>
    first
      | exact Or.inl (by omega)
      | exact Or.inr (by omega)

theorem rankDescLe_total (x y : ResearchResult) :
    rankDescLe x y = true ∨ rankDescLe y x = true := by
  simp only [rankDescLe, keyLE_iff]
  omega

theorem scoreResult_set_score (qt : List String) (r : ResearchResult) (x : Int) :
    scoreResult qt { r with relevance_score := x } = scoreResult qt r := rfl

/-! ## Claim theorems on the aggregator and ranker -/

/-- Claim C1 (code bug witness): with the pubmed unit raising an exception and
the other sources answering normally, search_all_sources returns an
EMPTY errors list - the catch-all except inside _search_source swallows
the exception and returns [], so the error-collection branch of
lines 112-118 never runs - while the failing source still contributes
zero results and the other buckets are unaffected.  The claim (and the
spec) require errors = ["pubmed: Connection refused"]. -/
theorem search_all_sources_swallows_source_failure :
    (search_all_sources "heart failure" 25 none outcomesOneFailing).errors = []
    ∧ (search_all_sources "heart failure" 25 none outcomesOneFailing).errors ≠
        ["pubmed: Connection refused"]
    ∧ ((search_all_sources "heart failure" 25 none outcomesOneFailing).publications.map
        (fun r => r.source)) = ["openalex"]
    ∧ (search_all_sources "heart failure" 25 none outcomesOneFailing).clinical_trials.length = 1
    ∧ (search_all_sources "heart failure" 25 none outcomesOneFailing).grants = [] := by
  decide

/-- Claim C2: for every call, total_results equals the sum of the lengths of
the three buckets (it is computed exactly so on line 169). -/
theorem total_results_eq_bucket_lengths (query : String) (n : Nat)
    (include_sources : Option (List String)) (outcomes : String → SourceOutcome) :
    (search_all_sources query n include_sources outcomes).total_results =
      (search_all_sources query n include_sources outcomes).publications.length +
      (search_all_sources query n include_sources outcomes).clinical_trials.length +
      (search_all_sources query n include_sources outcomes).grants.length := rfl

/-- Claim C3 counterexample: with include_sources = [] (provided but empty) the
code queries ALL known sources, so the searched set is not the
intersection [] given by the claim, and sources_queried is not a subset
of include_sources. -/
theorem include_empty_not_intersection :
    searchedSources (some []) = knownSources
    ∧ (search_all_sources "q" 25 (some []) outcomesAllEmpty).sources_queried = knownSources
    ∧ "pubmed" ∈ (search_all_sources "q" 25 (some []) outcomesAllEmpty).sources_queried
    ∧ "pubmed" ∉ ([] : List String) := by
  decide

/-- Claim C3 (amended): for a provided, NON-empty include_sources, the searched
set is exactly include_sources intersected with the known sources,
sources_queried equals include_sources (hence is a subset of it), and an
absent include_sources searches every known source. -/
theorem sources_resolution_nonempty (l : List String) (query : String)
    (n : Nat) (outcomes : String → SourceOutcome) (h : l ≠ []) :
    (search_all_sources query n (some l) outcomes).sources_queried = l
    ∧ searchedSources (some l) = l.filter (fun s => knownSources.contains s)
    ∧ (∀ s, s ∈ searchedSources (some l) ↔ s ∈ l ∧ s ∈ knownSources)
    ∧ searchedSources none = knownSources := by
  have hl : l.isEmpty = false := by
    cases l with
    | nil => exact absurd rfl h
    | cons a t => rfl
  refine ⟨?_, ?_, ?_, by decide⟩
  · show sourcesToQuery (some l) = l
    simp [sourcesToQuery, hl]
  · simp [searchedSources, sourcesToQuery, hl]
  · intro s
    simp [searchedSources, sourcesToQuery, hl, List.mem_filter]

/-- Claim C3 witness: the amended statement at the concrete selection
["pubmed", "openalex", "nope"]: the unknown name is dropped from the
searched set, sources_queried echoes the selection. -/
theorem sources_resolution_nonempty_witness :
    (search_all_sources "q" 25 (some ["pubmed", "openalex", "nope"]) outcomesAllEmpty).sources_queried =
      ["pubmed", "openalex", "nope"]
    ∧ searchedSources (some ["pubmed", "openalex", "nope"]) = ["pubmed", "openalex"] := by
  have h := sources_resolution_nonempty ["pubmed", "openalex", "nope"] "q" 25
    outcomesAllEmpty (by decide)
  exact ⟨h.1, h.2.1.trans (by decide)⟩

/-- Claim C10: an empty include_sources list is falsy in Python, so the call
behaves exactly as if include_sources were absent: every known source is
queried and sources_queried lists all five. -/
theorem empty_include_equals_default (query : String) (n : Nat)
    (outcomes : String → SourceOutcome) :
    search_all_sources query n (some []) outcomes =
      search_all_sources query n none outcomes
    ∧ (search_all_sources query n (some []) outcomes).sources_queried = knownSources :=
  ⟨rfl, rfl⟩

/-- Claim C4 counterexample: the recency bonus of the code is the fixed
thresholds 2020 / 2015, not current_year - 5 / current_year - 10.  For a
result from 2020 with no term matches the ranker assigns 2 half points
(1.0), while the claim formula evaluated at the current year 2026 gives
the 0.5 bonus (1 half point): 2020 < 2026 - 5. -/
theorem recency_fixed_thresholds_cex :
    (_rank_results [r2020] "cardiovascular disease").map (fun r => r.relevance_score) = [2]
    ∧ specRecencyBonus 2026 (some 2020) = 1
    ∧ (2 : Int) ≠ 0 + 0 + specRecencyBonus 2026 (some 2020) := by
  decide

/-- Claim C4 (amended): every result the ranker returns carries exactly the
score of the source formula - +2.0 per query term in the title, +1.0 per
term in the abstract, +1.0 when year is at least 2020 else +0.5 when at
least 2015 (fixed thresholds), and the openalex citation bonus - and the
worked example (title-only match, current year) scores 5.0, i.e. 10 half
points. -/
theorem rank_assigns_formula (results : List ResearchResult) (query : String) :
    ((_rank_results results query).all fun r =>
        r.relevance_score == scoreResult (queryTerms query) r) = true
    ∧ (_rank_results [cardioEx] "cardiovascular disease").map
        (fun r => r.relevance_score) = [10] := by
  refine ⟨?_, by decide⟩
  rw [_rank_results,
    all_eq_of_perm (perm_stableSortBy rankDescLe (scoredResults results query))]
  rw [List.all_eq_true]
  intro r' hr'
  obtain ⟨r, hr, rfl⟩ := List.mem_map.mp hr'
  rw [scoreResult_set_score]
  exact beq_self_eq_true _

/-- Claim C5: the ranker output is ordered by (relevance_score descending,
year-or-0 descending); results that tie on this key keep their original
(score-assignment pass) order; and ranking the same list twice gives the
same output. -/
theorem rank_sorted_stable_deterministic (results : List ResearchResult)
    (query : String) :
    List.Pairwise (fun a b : ResearchResult =>
        b.relevance_score < a.relevance_score ∨
          (b.relevance_score = a.relevance_score ∧ b.year.getD 0 ≤ a.year.getD 0))
      (_rank_results results query)
    ∧ (∀ k : Int × Int,
        (_rank_results results query).filter (fun r => decide (sortKey r = k)) =
          (scoredResults results query).filter (fun r => decide (sortKey r = k)))
    ∧ _rank_results results query = _rank_results results query := by
  refine ⟨?_, ?_, rfl⟩
  · have hs := pairwise_stableSortBy rankDescLe_trans rankDescLe_total
      (scoredResults results query)
    exact hs.imp fun h => by
      simpa [rankDescLe, keyLE_iff, sortKey] using h
  · intro k
    exact filter_stableSortBy
      (fun x y hx hy => by
        have hx' : sortKey x = k := of_decide_eq_true hx
        have hy' : sortKey y = k := of_decide_eq_true hy
        simp [rankDescLe, keyLE_iff, hx', hy'])
      (scoredResults results query)

end Research

namespace Matching

/-! ## Helper lemmas on the matching service -/

theorem score_evidenceItemOfWork (w : VectorWork) :
    (evidenceItemOfWork w).relevance_score = w.score := by
  simp only [evidenceItemOfWork]
  repeat' split
  all_goals rfl

theorem matchDescLe_trans (x y z : MatchResult)
    (hxy : matchDescLe x y = true) (hyz : matchDescLe y z = true) :
    matchDescLe x z = true := by
  simp only [matchDescLe, decide_eq_true_iff] at *
  omega

theorem matchDescLe_total (x y : MatchResult) :
    matchDescLe x y = true ∨ matchDescLe y x = true := by
  simp only [matchDescLe, decide_eq_true_iff]
  omega

theorem scoringFormula_total (c : ScoreComponents) :
    2 * (scoringFormula c).2.2 = 2 * (scoringFormula c).1 + (scoringFormula c).2.1 := by
  simp only [scoringFormula]
  omega

/-! ## Claim theorems on the matching service -/

/-- Claim C6 counterexample: the scoring formula at the claimed components
{pubs_5y 8, trials_pi 2, citations_bucket 1, inst_pubs 45, inst_trials
12, nih_grants 3} gives doctor 27, institution 48.0 and total 51.0 (108,
192, 204 quarter points), NOT the claimed institution 47.0 and total
50.5 (188 and 202 quarter points): 0.5 * 45 + 2 * 12 + 0.5 * 3 = 48. -/
theorem scoring_example_arithmetic_cex :
    scoringFormula ⟨8, 2, 1, 45, 12, 3⟩ = (108, 192, 204)
    ∧ scoringFormula ⟨8, 2, 1, 45, 12, 3⟩ ≠ (108, 188, 202) := by
  decide

/-- Claim C6 (amended): every scored specialist satisfies the formulas
doctor = 2 * pubs_5y + 5 * trials_pi + 1 * citations_bucket,
institution = 0.5 * inst_pubs + 2 * inst_trials + 0.5 * nih_grants,
total = doctor + 0.5 * institution (all stated in quarter points, the
total via doubling to stay integral), and citations_bucket =
min 3 (pubs_5y / 5) with the boundary values 4, 5, 14, 15+; the worked
example gives doctor 27, institution 48.0, total 51.0 (108, 192, 204
quarter points). -/
theorem calculate_scores_formula (doctor_works : List (String × List VectorWork)) :
    ((_calculate_scores doctor_works).all fun e =>
        (e.doctor_score ==
          4 * (2 * (e.components.pubs_5y : Int) + 5 * (e.components.trials_pi : Int)
            + 1 * (e.components.citations_bucket : Int)))
        && (e.institution_score ==
          2 * (e.components.inst_pubs : Int) + 8 * (e.components.inst_trials : Int)
            + 2 * (e.components.nih_grants : Int))
        && (2 * e.total_score == 2 * e.doctor_score + e.institution_score)
        && (e.components.citations_bucket == min 3 (e.components.pubs_5y / 5))) = true
    ∧ (min 3 (4 / 5) = 0 ∧ min 3 (5 / 5) = 1 ∧ min 3 (14 / 5) = 2
        ∧ ∀ n : Nat, 15 ≤ n → min 3 (n / 5) = 3)
    ∧ scoringFormula ⟨8, 2, 1, 45, 12, 3⟩ = (108, 192, 204) := by
  refine ⟨?_, ⟨by decide, by decide, by decide, fun n hn => by omega⟩, by decide⟩
  rw [List.all_eq_true]
  intro e he
  obtain ⟨entry, hmem, rfl⟩ := List.mem_map.mp he
  simp only [Bool.and_eq_true, beq_iff_eq]
  exact ⟨⟨⟨rfl, rfl⟩, scoringFormula_total _⟩, rfl⟩

/-- Claim C7 counterexample: when the vector-similarity service raises (qdrant
unreachable), find_matches does NOT surface a failure: the catch-all in
_vector_search substitutes the 20 hard-coded mock works and the request
returns three fabricated specialist matches (total score 220 quarter
points, i.e. 55.0). -/
theorem qdrant_failure_yields_fabricated_matches :
    find_matches reqCLI (Except.error "Connection refused") ≠ []
    ∧ (find_matches reqCLI (Except.error "Connection refused")).map
        (fun m => m.doctor_id) = ["doctor_1", "doctor_2", "doctor_3"]
    ∧ (find_matches reqCLI (Except.error "Connection refused")).map
        (fun m => m.total_score) = [220, 220, 220] := by
  decide

/-- Claim C7 (amended): on ANY vector-search failure, for EVERY request,
find_matches behaves exactly as if the search had succeeded with the
hard-coded mock results: the failure is silently masked, never
surfaced. -/
theorem find_matches_error_equals_mock (e : String) (req : MatchRequest) :
    find_matches req (Except.error e) =
      find_matches req (Except.ok _get_mock_vector_results) := rfl

/-- Claim C8: for works delivered in descending similarity order (as the
vector stage - qdrant contract and mock data alike - produces them), the
evidence list has at most 5 items, its items are the top five works by
relevance score (their scores are the take-5 of the work scores, they
descend, and every work beyond the fifth scores no higher than any
evidence item), in order, and each item carries the source-specific
annotations (pmid, nct_id with PI/Investigator role, project_id). -/
theorem evidence_is_top_five (works : List VectorWork)
    (h : works.Pairwise fun a b => b.score ≤ a.score) :
    (_generate_evidence works).length ≤ 5
    ∧ (_generate_evidence works).map (fun e => e.relevance_score) =
        (works.map (fun w => w.score)).take 5
    ∧ List.Pairwise (fun a b : Int => b ≤ a)
        ((_generate_evidence works).map fun e => e.relevance_score)
    ∧ (∀ w ∈ works.drop 5, ∀ e ∈ _generate_evidence works, w.score ≤ e.relevance_score)
    ∧ _generate_evidence works = (works.take 5).map evidenceItemOfWork
    ∧ (∀ w : VectorWork,
        (w.payload.source = some "pubmed" →
          (evidenceItemOfWork w).pmid = w.payload.source_key)
        ∧ (w.payload.source = some "ctgov" →
            (evidenceItemOfWork w).nct_id = w.payload.source_key
            ∧ (evidenceItemOfWork w).role =
                some (if w.payload.is_pi.getD false then "PI" else "Investigator"))
        ∧ (w.payload.source = some "nih_reporter" →
            (evidenceItemOfWork w).project_id = w.payload.source_key)) := by
  have hmap : (_generate_evidence works).map (fun e => e.relevance_score) =
      (works.map (fun w => w.score)).take 5 := by
    rw [_generate_evidence, List.map_map, ← List.map_take]
    exact List.map_congr_left fun w _ => score_evidenceItemOfWork w
  refine ⟨?_, hmap, ?_, ?_, rfl, ?_⟩
  · rw [_generate_evidence, List.length_map]
    have := List.length_take 5 works
    omega
  · rw [hmap]
    exact ((List.pairwise_map.mpr h).sublist (List.take_sublist 5 _))
  · intro w hw e he
    obtain ⟨w', hw', rfl⟩ := List.mem_map.mp he
    rw [score_evidenceItemOfWork]
    have hsplit : works = works.take 5 ++ works.drop 5 :=
      (List.take_append_drop 5 works).symm
    rw [hsplit] at h
    exact (List.pairwise_append.mp h).2.2 w' hw' w hw
  · intro w
    refine ⟨fun hs => ?_, fun hs => ?_, fun hs => ?_⟩ <;>
      simp [evidenceItemOfWork, hs]

/-- Claim C8 witness: the evidence of six concrete descending works has at
most five entries. -/
theorem evidence_is_top_five_witness :
    (_generate_evidence works6).length ≤ 5 :=
  (evidence_is_top_five works6 (by decide)).1

/-- Claim C9 counterexample: a request with max_results = 2 against three
qualifying specialists still returns 3 matches: find_matches slices with
the hard-coded [:10] and never reads max_results. -/
theorem max_results_ignored_cex :
    (find_matches reqMax2 (Except.ok [wSimple])).length = 3
    ∧ reqMax2.max_results = some 2
    ∧ (3 : Nat) ≠ 2 := by
  decide

/-- Claim C9 (amended): find_matches returns the qualifying specialists sorted
by total_score descending (ties keep pipeline order) and truncated to
the hard-coded bound 10, whatever max_results asks. -/
theorem find_matches_sorted_truncated_ten (req : MatchRequest)
    (outcome : QdrantOutcome) :
    (find_matches req outcome).length = min 10 (matchesOf req outcome).length
    ∧ (find_matches req outcome).length ≤ 10
    ∧ List.Pairwise (fun a b : MatchResult => b.total_score ≤ a.total_score)
        (find_matches req outcome) := by
  have hlen : (find_matches req outcome).length =
      min 10 (matchesOf req outcome).length := by
    rw [find_matches, List.length_take, length_stableSortBy]
  refine ⟨hlen, by omega, ?_⟩
  have hs := pairwise_stableSortBy matchDescLe_trans matchDescLe_total
    (matchesOf req outcome)
  have := hs.sublist (List.take_sublist 10 _)
  exact this.imp fun hb => of_decide_eq_true hb

end Matching

end AnotherDoctor
